import Mathlib

/-!
Verification of the GEP partner-system analysis scripts
(`backend/excel_reader.py`, `backend/sql_generator.py`,
`backend/comprehensive_analysis_report.py`).

The scripts are shallowly embedded:

* A spreadsheet cell is modelled by its pandas display string; a missing
  entry (`NaN`) is `none`.  The relationship-inference algorithm only ever
  looks at `astype(str)` images of non-missing values, so this is the
  granularity at which the code itself operates.
* `float` percentages are modelled by `ℚ`; the percentages produced by the
  code are ratios of small natural numbers scaled by 100.
* Python's `list(some_set)` enumerates a hash table whose layout depends on
  the interpreter's string-hash seed, so the enumeration order is passed as
  an explicit parameter (`order`) wherever the code converts a set to a
  list; `id` stands for the order of one fixed run.
* The fallible I/O of each script (opening the workbook, reading the JSON
  summary, reading the CSV exports) is modelled by `Except`-valued fields
  of an environment record; `do`-notation mirrors exception propagation,
  and a Python `try/except` that logs and returns `None` is modelled by
  mapping the `Except.error` case to `none`.
-/

namespace GEP

/-! Section: character and string helpers.

Python's `needle in hay`, `str.endswith` and `str.lower()` are re-implemented
by structural recursion on character lists so that they evaluate inside the
kernel. -/

/-- One character of Python's `str.lower()`: ASCII upper-case letters are
shifted into lower case, all other characters are untouched. -/
def charLower (c : Char) : Char :=
  if c.isUpper then Char.ofNat (c.toNat + 32) else c

/-- Python `str.lower()` (restricted to its ASCII action, which is all the
source uses it for). -/
def strToLower (s : String) : String :=
  ⟨s.data.map charLower⟩

/-- Predicate `startsWithChars pat l` holds when `pat` is an initial segment of `l`. -/
def startsWithChars : List Char → List Char → Bool
  | [], _ => true
  | _ :: _, [] => false
  | a :: as, b :: bs => a == b && startsWithChars as bs

/-- Test `containsChars needle hay = true` holds exactly when `needle` occurs contiguously
inside `hay`. -/
def containsChars (needle : List Char) : List Char → Bool
  | [] => needle.isEmpty
  | b :: bs => startsWithChars needle (b :: bs) || containsChars needle bs

/-- Python's `needle in hay` on strings. -/
def strContains (hay needle : String) : Bool :=
  containsChars needle.data hay.data

/-- Python's `hay.endswith(suffix)`. -/
def strEndsWith (hay suffix : String) : Bool :=
  startsWithChars suffix.data.reverse hay.data.reverse

/-! Section: data model. -/

/-- One column of a sheet: its label, the pandas dtype tag (`str(dtype)`),
and its cells top to bottom.  A cell is the pandas string representation of
the stored value, or `none` for a missing entry. -/
structure Column where
  name : String
  dtype : String
  cells : List (Option String)
deriving DecidableEq

/-- One sheet of the workbook.  `nrows` is `len(df)`, the number of rows of
the DataFrame; in any sheet actually read from a workbook every column has
exactly `nrows` cells, which is taken as a hypothesis where a claim needs
it. -/
structure Sheet where
  name : String
  nrows : Nat
  columns : List Column
deriving DecidableEq

/-- Composition `df[col].dropna()` then `astype(str)`: the string
representations of the non-missing cells, in row order. -/
def nonNullValues (c : Column) : List String :=
  c.cells.filterMap id

/-! Section: `calculate_column_similarity` (excel_reader.py lines 151-178). -/

/-- The record returned by `calculate_column_similarity`. -/
structure Similarity where
  match_percentage : ℚ
  common_values : List String
deriving DecidableEq

/-- Function `calculate_column_similarity(col1, col2)` (excel_reader.py 151-178),
parameterised by the set-enumeration order of the run.  `col1.dropna()` /
`col2.dropna()` are `nonNullValues`; the Python sets `set1`, `set2` are
modelled as duplicate-free lists (`dedup`), and the intersection set
`common_values` as the sublist of `set1` whose elements occur in `set2`.
`order` is applied where the code runs `list(common_values)`. -/
def calculate_column_similarityL (order : List String → List String)
    (col1 col2 : Column) : Similarity :=
  let col1_clean := nonNullValues col1
  let col2_clean := nonNullValues col2
  if col1_clean.length = 0 ∨ col2_clean.length = 0 then
    { match_percentage := 0, common_values := [] }
  else
    let set1 := col1_clean.dedup
    let set2 := col2_clean.dedup
    let common_values := set1.filter fun x => decide (x ∈ set2)
    let match_percentage : ℚ :=
      if set1.length = 0 then 0
      else ((common_values.length : ℚ) / (set1.length : ℚ)) * 100
    { match_percentage := match_percentage, common_values := order common_values }

/-- Function `calculate_column_similarity` as executed by one fixed run. -/
def calculate_column_similarity : Column → Column → Similarity :=
  calculate_column_similarityL id

/-! Section: column profiling (excel_reader.py lines 39-60). -/

/-- The per-column record `col_info` built in `analyze_excel_file`
(excel_reader.py 41-55). -/
structure ColInfo where
  dtype : String
  non_null_count : Nat
  null_count : Nat
  unique_count : Nat
  sample_values : List String
  potential_primary_key : Bool
deriving DecidableEq

/-- Lines 41-55 of excel_reader.py for one column: `count()` is the number
of non-missing cells, `isnull().sum()` the number of missing ones,
`nunique()` the number of distinct non-missing values, `sample_values` the
first five non-missing values (`[]` for a column with no cells at all), and
`potential_primary_key` is set exactly when `unique_count == len(df)` and
`null_count == 0`; `nrows` is `len(df)`. -/
def profileColumn (nrows : Nat) (c : Column) : ColInfo :=
  let non_null_count := (nonNullValues c).length
  let null_count := c.cells.countP fun v => v.isNone
  let unique_count := (nonNullValues c).dedup.length
  let sample_values := if c.cells.isEmpty then [] else (nonNullValues c).take 5
  { dtype := c.dtype
    non_null_count := non_null_count
    null_count := null_count
    unique_count := unique_count
    sample_values := sample_values
    potential_primary_key := unique_count == nrows && null_count == 0 }

/-- The `column_info` dictionary of one sheet (excel_reader.py 39-56):
column label paired with its profile, in column order. -/
def sheetStructure (s : Sheet) : List (String × ColInfo) :=
  s.columns.map fun c => (c.name, profileColumn s.nrows c)

/-! Section: `analyze_relationships` (excel_reader.py lines 119-149). -/

/-- One entry of the `relationships` list (excel_reader.py 138-145). -/
structure Relationship where
  from_sheet : String
  from_column : String
  to_sheet : String
  to_column : String
  match_percentage : ℚ
  common_values : List String
deriving DecidableEq

/-- The relationship record appended for the pair `(c1 in s1, c2 in s2)`
(excel_reader.py 138-145). -/
def mkRelationship (s1 : Sheet) (c1 : Column) (s2 : Sheet) (c2 : Column) :
    Relationship :=
  { from_sheet := s1.name
    from_column := c1.name
    to_sheet := s2.name
    to_column := c2.name
    match_percentage := (calculate_column_similarity c1 c2).match_percentage
    common_values := (calculate_column_similarity c1 c2).common_values }

/-- The generation loop of `analyze_relationships` (excel_reader.py
126-145), before sorting, parameterised by the run's set-enumeration
order: for every ordered pair of sheet positions `i ≠ j` and every pair of
columns whose labels differ (`if col1 != col2`), the candidate is appended
when the match percentage exceeds 50. -/
def genRelationshipsL (order : List String → List String)
    (sheets : List Sheet) : List Relationship :=
  sheets.enum.flatMap fun p1 =>
    sheets.enum.flatMap fun p2 =>
      if p1.1 = p2.1 then []
      else
        p1.2.columns.flatMap fun c1 =>
          p2.2.columns.flatMap fun c2 =>
            if c1.name = c2.name then []
            else
              let similarity := calculate_column_similarityL order c1 c2
              if 50 < similarity.match_percentage then
                [{ from_sheet := p1.2.name
                   from_column := c1.name
                   to_sheet := p2.2.name
                   to_column := c2.name
                   match_percentage := similarity.match_percentage
                   common_values := similarity.common_values }]
              else []

/-- The generation loop as executed by one fixed run. -/
def genRelationships : List Sheet → List Relationship :=
  genRelationshipsL id

/-- The comparison used by `relationships.sort(key=lambda x:
x['match_percentage'], reverse=True)`: `a` may precede `b` when `a`'s
percentage is at least `b`'s.  Python's sort is stable and `reverse=True`
keeps the original order of equal keys, so the sort is modelled by a stable
merge sort under this comparison. -/
def relLE (a b : Relationship) : Bool :=
  decide (b.match_percentage ≤ a.match_percentage)

/-- Function `analyze_relationships(all_sheets_data)` (excel_reader.py 119-149),
parameterised by the run's set-enumeration order: generate the candidates,
then sort them by descending match percentage with a stable sort. -/
def analyze_relationshipsL (order : List String → List String)
    (sheets : List Sheet) : List Relationship :=
  (genRelationshipsL order sheets).mergeSort relLE

/-- Function `analyze_relationships` as executed by one fixed run. -/
def analyze_relationships : List Sheet → List Relationship :=
  analyze_relationshipsL id

/-! Section: the JSON summary and the runtime environment. -/

/-- The dictionary serialized to `excel_analysis.json` (excel_reader.py
100-106). -/
structure AnalysisData where
  file_path : String
  sheet_names : List String
  sheet_structures : List (String × List (String × ColInfo))
  potential_relationships : List Relationship
  total_sheets : Nat
deriving DecidableEq

/-- Lines 100-106 of excel_reader.py, parameterised by the run's
set-enumeration order: the analysis dictionary built from the profiled
sheets.  Only `potential_relationships` can depend on the order (through
the `common_values` lists); every other field is computed without ever
converting a set to a list. -/
def analysisDataL (order : List String → List String) (file_path : String)
    (sheets : List Sheet) : AnalysisData :=
  { file_path := file_path
    sheet_names := sheets.map Sheet.name
    sheet_structures := sheets.map fun s => (s.name, sheetStructure s)
    potential_relationships := analyze_relationshipsL order sheets
    total_sheets := sheets.length }

/-- Lines 100-106 of excel_reader.py as executed by one fixed run. -/
def analysisData (file_path : String) (sheets : List Sheet) : AnalysisData :=
  analysisDataL id file_path sheets

/-- The triple returned by a successful `analyze_excel_file` run
(excel_reader.py 113). -/
structure AnalyzeResult where
  all_sheets_data : List Sheet
  sheet_structures : List (String × List (String × ColInfo))
  potential_relationships : List Relationship
deriving DecidableEq

/-- The filesystem/runtime environment a run executes against.  Each field
holds the outcome of the corresponding fallible read: `workbook` is the
attempt to open the Excel file and read every sheet, `analysis_json` the
attempt to load `excel_analysis.json`, `csv_tables` the attempt to read
the per-sheet CSV exports, and `now` is the wall-clock timestamp string
interpolated into generated headers. -/
structure Env where
  workbook : Except String (List Sheet)
  analysis_json : Except String AnalysisData
  csv_tables : Except String (List (String × Sheet))
  now : String

/-- The body of `analyze_excel_file` (excel_reader.py 10-113) without its
`try/except`: read the workbook (which may raise), profile every sheet,
and run the relationship analysis.  The CSV/JSON writes of lines 94-109
produce `analysisData` and are not otherwise observable here. -/
def analyze_excel_fileE (env : Env) : Except String AnalyzeResult := do
  let sheets ← env.workbook
  pure { all_sheets_data := sheets
         sheet_structures := sheets.map fun s => (s.name, sheetStructure s)
         potential_relationships := analyze_relationships sheets }

/-- Function `analyze_excel_file(file_path)` (excel_reader.py 6-117): the
whole body runs inside `try/except Exception`, whose handler prints the
error and returns `None, None, None`, modelled by `none`. -/
def analyze_excel_file (env : Env) : Option AnalyzeResult :=
  match analyze_excel_fileE env with
  | .ok r => some r
  | .error _ => none

/-! Section: sql_generator.py. -/

/-- Function `map_pandas_to_sql_type(dtype, column_name, sample_values,
unique_count, row_count)` (sql_generator.py 63-117).  The `try/except`
around the sample-length maximum (lines 106-110) cannot fire in this model
because taking the length of a string is total, so the `except` arm
(`max_len = 255`) is dead here; Python's `max` over the non-empty list of
lengths is the fold below. -/
def map_pandas_to_sql_type (dtype : String) (column_name : String)
    (sample_values : List String) (unique_count row_count : Nat) : String :=
  let dtype_str := dtype
  if strContains column_name "Code" || strEndsWith column_name "_id" then
    if strContains dtype_str "int" then "INT PRIMARY KEY"
    else "VARCHAR(20) PRIMARY KEY"
  else if strContains column_name "Date" || strContains (strToLower column_name) "date" then
    if strContains dtype_str "datetime64" then "DATETIME" else "DATE"
  else if strContains column_name "Time" || strContains (strToLower column_name) "time" then
    "TIME"
  else if strContains column_name "Hours" || strContains column_name "Duration" ||
      strContains column_name "Value" || strContains column_name "Revenue" ||
      strContains column_name "Price" then
    "DECIMAL(10,2)"
  else if unique_count ≤ 2 ∧ strContains dtype_str "int" then
    "TINYINT(1)"
  else if strContains dtype_str "int64" then
    if unique_count = row_count then "BIGINT PRIMARY KEY" else "BIGINT"
  else if strContains dtype_str "float64" then "DECIMAL(15,4)"
  else if strContains dtype_str "datetime64" then "DATETIME"
  else if strContains dtype_str "object" then
    let max_len :=
      if sample_values.isEmpty then 50
      else min ((sample_values.foldl (fun m v => max m v.length) 0) + 20) 500
    if 255 < max_len then "TEXT" else "VARCHAR(" ++ toString max_len ++ ")"
  else "VARCHAR(255)"

/-- Table-name sanitisation (sql_generator.py 135/190): spaces become
underscores, parentheses are dropped, the result is lower-cased. -/
def safeTableName (s : String) : String :=
  strToLower (((s.replace " " "_").replace "(" "").replace ")" "")

/-- Column-name sanitisation (sql_generator.py 145/195): like table names,
with `/` also mapped to `_`. -/
def safeColName (s : String) : String :=
  strToLower ((((s.replace " " "_").replace "(" "").replace ")" "").replace "/" "_")

/-- The dependency order in which tables are created and filled
(sql_generator.py 128 and 183). -/
def table_order : List String :=
  ["Client", "Resources", "Installation", "Contract",
   "Contract Service (Project)", "Installation Services (Sub Pro)", "Visits"]

/-- One `CREATE TABLE` block (sql_generator.py 130-170).  The fold mirrors
the loop of lines 144-162: each column's SQL type comes from
`map_pandas_to_sql_type`; a type containing `PRIMARY KEY` has that suffix
removed and the column recorded as a key column; `NOT NULL` is added when
the column has no missing entry; the produced line is `strip()`-ped (which
also removes the four-space indent, as in the source). -/
def createTableSql (table_name : String) (df : Sheet) : String :=
  let safe_table_name := safeTableName table_name
  let step := fun (acc : List String × List String) (col : Column) =>
    let safe_col_name := safeColName col.name
    let unique_count := (nonNullValues col).dedup.length
    let row_count := df.nrows
    let sample_values := (nonNullValues col).take 5
    let sql_type0 := map_pandas_to_sql_type col.dtype col.name sample_values unique_count row_count
    let isPK := strContains sql_type0 "PRIMARY KEY"
    let sql_type := if isPK then sql_type0.replace " PRIMARY KEY" "" else sql_type0
    let null_constraint := if col.cells.countP (fun v => v.isNone) = 0 then "NOT NULL" else ""
    (acc.1 ++ [("    " ++ safe_col_name ++ " " ++ sql_type ++ " " ++ null_constraint).trim],
     acc.2 ++ if isPK then [safe_col_name] else [])
  let res := df.columns.foldl step ([], [])
  "-- Create " ++ table_name ++ " table\n" ++
    "DROP TABLE IF EXISTS " ++ safe_table_name ++ ";\n" ++
    "CREATE TABLE " ++ safe_table_name ++ " (\n" ++
    String.intercalate ",\n" res.1 ++
    (if res.2.isEmpty then ""
     else ",\n    PRIMARY KEY (" ++ String.intercalate ", " res.2 ++ ")") ++
    "\n);\n\n"

/-- Function `generate_table_creation_sql(all_data, analysis_data)`
(sql_generator.py 119-172); as in the source, `analysis_data` is accepted
and never used.  Tables are emitted in `table_order`, skipping names absent
from `all_data`. -/
def generate_table_creation_sql (all_data : List (String × Sheet))
    (analysis_data : AnalysisData) : String :=
  let _ := analysis_data
  "\n-- =====================================================\n" ++
    "-- TABLE CREATION STATEMENTS\n" ++
    "-- =====================================================\n\n" ++
    String.join (table_order.filterMap fun tn =>
      (all_data.lookup tn).map fun df => createTableSql tn df)

/-- One rendered SQL value (sql_generator.py 202-214).  At the cell model's
granularity every non-missing value is a display string, so the
`isinstance` ladder collapses to: missing entry → `NULL`, value →
single-quoted with internal quotes doubled. -/
def renderCell : Option String → String
  | none => "NULL"
  | some v => "\x27" ++ v.replace "\x27" "\x27\x27" ++ "\x27"

/-- Row `r` of a sheet, in column order (the `iterrows()` view of the
column-major model). -/
def sheetRow (df : Sheet) (r : Nat) : List (Option String) :=
  df.columns.map fun c => c.cells.getD r none

/-- One `INSERT INTO` block (sql_generator.py 185-219). -/
def insertTableSql (table_name : String) (df : Sheet) : String :=
  "-- Insert data into " ++ table_name ++ "\n" ++
    "INSERT INTO " ++ safeTableName table_name ++ " (" ++
    String.intercalate ", " (df.columns.map fun c => safeColName c.name) ++
    ") VALUES\n" ++
    String.intercalate ",\n" ((List.range df.nrows).map fun r =>
      "    (" ++ String.intercalate ", " ((sheetRow df r).map renderCell) ++ ")") ++
    ";\n\n"

/-- Function `generate_data_insertion_sql(all_data)` (sql_generator.py
174-221). -/
def generate_data_insertion_sql (all_data : List (String × Sheet)) : String :=
  "\n-- =====================================================\n" ++
    "-- DATA INSERTION STATEMENTS\n" ++
    "-- =====================================================\n\n" ++
    String.join (table_order.filterMap fun tn =>
      (all_data.lookup tn).map fun df => insertTableSql tn df)

/-- One hard-coded foreign-key record (sql_generator.py 232-275). -/
structure FkRel where
  child_table : String
  child_column : String
  parent_table : String
  parent_column : String

/-- The hard-coded relationship list of sql_generator.py 232-275, including
the `conrtact_code` and `rerource_code` spellings of the source. -/
def fk_relationships : List FkRel :=
  [⟨"installation", "company_code", "client", "company_code"⟩,
   ⟨"contract", "company_code", "client", "company_code"⟩,
   ⟨"contract_service_project", "conrtact_code", "contract", "contract_code"⟩,
   ⟨"installation_services_sub_pro", "conrtact_code", "contract", "contract_code"⟩,
   ⟨"installation_services_sub_pro", "installation_code", "installation", "installation_code"⟩,
   ⟨"installation_services_sub_pro", "rerource_code", "resources", "resource_code"⟩,
   ⟨"visits", "rerource_code", "resources", "resource_code"⟩]

/-- Function `generate_foreign_key_constraints()` (sql_generator.py
223-283). -/
def generate_foreign_key_constraints : String :=
  "\n-- =====================================================\n" ++
    "-- FOREIGN KEY CONSTRAINTS\n" ++
    "-- =====================================================\n\n" ++
    String.join (fk_relationships.map fun rel =>
      "ALTER TABLE " ++ rel.child_table ++ "\n" ++
        "ADD CONSTRAINT fk_" ++ rel.child_table ++ "_" ++ rel.child_column ++ "\n" ++
        "FOREIGN KEY (" ++ rel.child_column ++ ") REFERENCES " ++
        rel.parent_table ++ "(" ++ rel.parent_column ++ ");\n\n")

/-- The hard-coded demonstration queries (sql_generator.py 293-360), as
description/text pairs. -/
def sample_queries : List (String × String) :=
  [("Get all active contracts with client information",
    "SELECT \n    c.contract_code,\n    c.contract_name,\n    cl.company_name,\n    c.contract_start_date,\n    c.contract_end_date,\n    c.contract_value\nFROM contract c\nJOIN client cl ON c.company_code = cl.company_code\nWHERE c.active_contract = 1;"),
   ("Get installation details with employee counts",
    "SELECT \n    i.installation_code,\n    i.description,\n    i.address,\n    i.employees_per_installation,\n    i.installation_work_hours,\n    cl.company_name\nFROM installation i\nJOIN client cl ON i.company_code = cl.company_code\nWHERE i.installation_is_active = 1;"),
   ("Get contract services with revenue information",
    "SELECT \n    cs.contract_service_code,\n    cs.service_name,\n    cs.assigned_hours__quantity,\n    cs.price_per_uom,\n    cs.contract_service_revenue,\n    c.contract_name\nFROM contract_service_project cs\nJOIN contract c ON cs.conrtact_code = c.contract_code;"),
   ("Get resource utilization across visits",
    "SELECT \n    r.resource_name,\n    r.specialty_name,\n    COUNT(v.visit_code) as total_visits,\n    SUM(v.1_duration) as total_hours,\n    AVG(v.1_duration) as avg_visit_duration\nFROM resources r\nLEFT JOIN visits v ON r.resource_code = v.rerource_code\nGROUP BY r.resource_code, r.resource_name, r.specialty_name\nORDER BY total_hours DESC;"),
   ("Get upcoming visits by status",
    "SELECT \n    v.visit_code,\n    v.client_name,\n    r.resource_name,\n    v.ημερομηνία_έναρξης_επίσκεψης as visit_start_date,\n    v.visit_start_time,\n    v.1_duration as duration_hours,\n    v.visit_status\nFROM visits v\nJOIN resources r ON v.rerource_code = r.resource_code\nWHERE v.visit_status = \x27Προς έναρξη\x27\nORDER BY v.ημερομηνία_έναρξης_επίσκεψης ASC;")]

/-- Function `generate_sample_queries()` (sql_generator.py 285-366). -/
def generate_sample_queries : String :=
  "\n-- =====================================================\n" ++
    "-- SAMPLE QUERIES FOR TESTING\n" ++
    "-- =====================================================\n\n" ++
    String.join (sample_queries.map fun qi =>
      "-- " ++ qi.1 ++ "\n" ++ qi.2 ++ "\n\n")

/-- The script header of sql_generator.py 14-27, with the `datetime.now()`
timestamp interpolated. -/
def sqlHeader (timestamp : String) : String :=
  "-- =====================================================\n" ++
    "-- GEP DEMO DATABASE - COMPREHENSIVE SQL SCRIPT\n" ++
    "-- Generated on: " ++ timestamp ++ "\n" ++
    "-- Source: Gep DEMO DATA.xlsx\n" ++
    "-- =====================================================\n\n" ++
    "-- Create database (uncomment if needed)\n" ++
    "-- CREATE DATABASE gep_demo;\n-- USE gep_demo;\n\n" ++
    "-- Enable foreign key checks\nSET FOREIGN_KEY_CHECKS = 1;\n\n"

/-- Function `generate_sql_schema_and_data()` (sql_generator.py 5-61).
There is no `try/except` anywhere in this script: the load of
`excel_analysis.json` (line 11) and of each CSV export (lines 41-42) can
raise, and any such exception propagates to the caller, which the `do`
bind on the `Except`-valued reads mirrors. -/
def generate_sql_schema_and_data (env : Env) : Except String String := do
  let analysis_data ← env.analysis_json
  let sql_script := sqlHeader env.now
  let all_data ← env.csv_tables
  pure (sql_script ++
    generate_table_creation_sql all_data analysis_data ++
    generate_data_insertion_sql all_data ++
    generate_foreign_key_constraints ++
    generate_sample_queries)

/-! Section: comprehensive_analysis_report.py. -/

/-- Function `get_sheet_purpose(sheet_name)`
(comprehensive_analysis_report.py 222-233). -/
def get_sheet_purpose (sheet_name : String) : String :=
  (([("Client", "Master client information and account management details"),
     ("Installation", "Physical locations where services are provided"),
     ("Contract", "Service agreements and contract terms"),
     ("Contract Service (Project)", "Individual services within contracts with pricing"),
     ("Installation Services (Sub Pro)", "Services assigned to specific installations"),
     ("Visits", "Individual service visits and appointments"),
     ("Resources", "Personnel and service providers (doctors, engineers, etc.)")] :
    List (String × String)).lookup sheet_name).getD "Business data table"

/-- Function `get_sheet_insights(sheet_name, df)`
(comprehensive_analysis_report.py 235-290), modelled at the granularity of
the cell model: the per-sheet branches aggregate numeric cell values
(sums, means, modes) that display strings do not support re-computing, so
each known-sheet branch is represented by its leading record-count bullet
and unknown sheets by the generic branch.  The function's internal
`try/except` renders any branch error into the returned string, so no
exception escapes it. -/
def get_sheet_insights (sheet_name : String) (df : Sheet) : String :=
  if sheet_name = "Client" then
    "• Single client organization managing " ++ toString df.nrows ++ " company entity"
  else if sheet_name = "Installation" then
    "• " ++ toString df.nrows ++ " installations managed"
  else if sheet_name = "Contract" then
    "• " ++ toString df.nrows ++ " contracts"
  else if sheet_name = "Contract Service (Project)" then
    "• " ++ toString df.nrows ++ " service projects"
  else if sheet_name = "Installation Services (Sub Pro)" then
    "• " ++ toString df.nrows ++ " installation service assignments"
  else if sheet_name = "Visits" then
    "• " ++ toString df.nrows ++ " visits recorded/planned"
  else if sheet_name = "Resources" then
    "• " ++ toString df.nrows ++ " personnel/resources available"
  else "• Data table with business information"

/-- One sheet section of the report (comprehensive_analysis_report.py
52-81): dimensions, purpose, per-column profile lines with the 🔑 marker
for key candidates, and insights. -/
def reportSheetSection (analysis_data : AnalysisData)
    (all_data : List (String × Sheet)) (sheet_name : String) : String :=
  match all_data.lookup sheet_name with
  | none => ""
  | some df =>
    let structure_cols :=
      ((analysis_data.sheet_structures.lookup sheet_name).getD [])
    "\n### " ++ sheet_name ++ "\n**Dimensions**: " ++ toString df.nrows ++
      " rows × " ++ toString df.columns.length ++ " columns\n\n**Purpose**: " ++
      get_sheet_purpose sheet_name ++ "\n\n**Columns**:\n" ++
      String.join (df.columns.map fun col =>
        match structure_cols.lookup col.name with
        | none => ""
        | some info =>
          "- **" ++ col.name ++ "**" ++
            (if info.potential_primary_key then " 🔑" else "") ++ ": " ++
            info.dtype ++ " (" ++ toString info.non_null_count ++ " non-null, " ++
            toString info.unique_count ++ " unique)\n") ++
      "\n**Key Insights**:\n" ++ get_sheet_insights sheet_name df ++ "\n\n---\n"

/-- The pure templating tail of `generate_comprehensive_report`
(comprehensive_analysis_report.py 29-213): header, executive summary
statistics, per-sheet sections, the 100%-match relationship list (first
ten), and the fixed narrative blocks, which are represented here by their
data-dependent skeleton (the hard-coded business commentary of lines
126-213 carries no computation). -/
def reportText (now : String) (analysis_data : AnalysisData)
    (all_data : List (String × Sheet)) : String :=
  let primary_relationships :=
    (analysis_data.potential_relationships.filter fun rel =>
      decide (rel.match_percentage = 100)).take 10
  "\n# COMPREHENSIVE EXCEL DATA ANALYSIS REPORT\n## Generated on: " ++ now ++
    "\n## Source File: /Users/mtz/Projects/GEP/Gep DEMO DATA.xlsx\n\n---\n\n" ++
    "## EXECUTIVE SUMMARY\n\n### Key Statistics:\n- **Total Sheets**: " ++
    toString analysis_data.sheet_names.length ++
    "\n- **Total Records**: " ++
    toString (all_data.foldl (fun n p => n + p.2.nrows) 0) ++
    "\n- **Total Columns**: " ++
    toString (all_data.foldl (fun n p => n + p.2.columns.length) 0) ++
    "\n- **Identified Relationships**: " ++
    toString analysis_data.potential_relationships.length ++
    "\n\n---\n\n## SHEET-BY-SHEET ANALYSIS\n\n" ++
    String.join (analysis_data.sheet_names.map
      (reportSheetSection analysis_data all_data)) ++
    "\n## RELATIONSHIP ANALYSIS\n\n### Primary Relationships (100% match):\n" ++
    String.join (primary_relationships.map fun rel =>
      "- **" ++ rel.from_sheet ++ "." ++ rel.from_column ++ "** → **" ++
        rel.to_sheet ++ "." ++ rel.to_column ++ "**\n")

/-- Function `generate_comprehensive_report()`
(comprehensive_analysis_report.py 5-220).  As in sql_generator.py there is
no top-level `try/except`: the JSON load (line 11) and the CSV reads
(lines 26-27) propagate any exception to the caller. -/
def generate_comprehensive_report (env : Env) : Except String String := do
  let analysis_data ← env.analysis_json
  let all_data ← env.csv_tables
  pure (reportText env.now analysis_data all_data)

/-! Section: serialization order of `list(set)` (for the determinism
claim). -/

/-- Python's `list(s)` on a set enumerates a hash table whose layout
depends on the interpreter's per-process string-hash seed: across runs the
produced list is some permutation of any fixed listing.  `IsReordering f`
says `f` is one run's enumeration behaviour. -/
def IsReordering (f : List String → List String) : Prop :=
  ∀ l : List String, (f l).Perm l

/-- The entry lines `json.dump(..., indent=2)` (excel_reader.py 108-109)
writes for the elements of a `common_values` list: each entry double-quoted
on its own line, indented by eight spaces (the list sits at nesting depth
four: top-level dict → `potential_relationships` → relationship dict →
`common_values`), entries separated by commas. -/
def renderStrings : List String → String
  | [] => ""
  | [s] => "\n        \"" ++ s ++ "\""
  | s :: rest => "\n        \"" ++ s ++ "\"," ++ renderStrings rest

/-- A rendered `common_values` field, byte for byte as `json.dump(...,
indent=2)` writes it inside `excel_analysis.json`: `[]` for an empty list,
otherwise the indented entry lines followed by the closing bracket indented
by six spaces. -/
def renderCommonValues : List String → String
  | [] => "[]"
  | l => "[" ++ renderStrings l ++ "\n      ]"

/-- Re-listing of one candidate's `common_values` in another run's
set-enumeration order; every other field of the candidate is kept. -/
def reorderRel (order : List String → List String) (r : Relationship) :
    Relationship :=
  { r with common_values := order r.common_values }

/-- Agreement of two runs' relationship candidates: equal source and
target endpoints, equal match percentage, and `common_values` lists that
are permutations of each other. -/
def RelMatchUpToOrder (r1 r2 : Relationship) : Prop :=
  r1.from_sheet = r2.from_sheet ∧ r1.from_column = r2.from_column ∧
    r1.to_sheet = r2.to_sheet ∧ r1.to_column = r2.to_column ∧
    r1.match_percentage = r2.match_percentage ∧
    r1.common_values.Perm r2.common_values

/-! Section: concrete workbooks and environments used to evaluate the
definitions on explicit inputs. -/

/-- Column with five distinct values, as in the spec's worked example. -/
def colX : Column :=
  ⟨"X", "object", [some "1", some "2", some "3", some "4", some "5"]⟩

/-- Column with the same five values plus three extra. -/
def colY : Column :=
  ⟨"Y", "object",
    [some "1", some "2", some "3", some "4", some "5", some "6", some "7", some "8"]⟩

/-- Column whose single entry is missing. -/
def colAllMissing : Column := ⟨"M", "float64", [none]⟩

/-- Column with one non-missing value. -/
def colA : Column := ⟨"A", "object", [some "a"]⟩

/-- Two same-named, fully overlapping columns in two sheets. -/
def colK1 : Column := ⟨"K", "object", [some "x"]⟩

/-- Second copy of the same-named column, in the other sheet. -/
def colK2 : Column := ⟨"K", "object", [some "x"]⟩

/-- Sheet holding `colK1`. -/
def sheetKA : Sheet := ⟨"A", 1, [colK1]⟩

/-- Sheet holding `colK2`. -/
def sheetKB : Sheet := ⟨"B", 1, [colK2]⟩

/-- Differently named column fully overlapping `colKb`. -/
def colKa : Column := ⟨"ka", "object", [some "x"]⟩

/-- Differently named column fully overlapping `colKa`. -/
def colKb : Column := ⟨"kb", "object", [some "x"]⟩

/-- Sheet holding `colKa`. -/
def sheetA2 : Sheet := ⟨"A", 1, [colKa]⟩

/-- Sheet holding `colKb`. -/
def sheetB2 : Sheet := ⟨"B", 1, [colKb]⟩

/-- Column with two values shared with `colQ`. -/
def colP : Column := ⟨"P", "object", [some "u", some "v"]⟩

/-- Column with two values shared with `colP`. -/
def colQ : Column := ⟨"Q", "object", [some "u", some "v"]⟩

/-- Sheet holding `colP`. -/
def sheetPA : Sheet := ⟨"PA", 2, [colP]⟩

/-- Sheet holding `colQ`. -/
def sheetPB : Sheet := ⟨"PB", 2, [colQ]⟩

/-- All-present, all-distinct column: a key candidate. -/
def colId : Column := ⟨"Id", "int64", [some "1", some "2"]⟩

/-- Sheet holding `colId`, with two rows. -/
def sheetW : Sheet := ⟨"W", 2, [colId]⟩

/-- Column of a zero-row sheet: no cells at all. -/
def colEmpty : Column := ⟨"E", "object", []⟩

/-- Zero-row sheet holding `colEmpty`. -/
def sheet0 : Sheet := ⟨"Empty", 0, [colEmpty]⟩

/-- One-row column whose only entry is missing. -/
def colOneMissing : Column := ⟨"M1", "float64", [none]⟩

/-- One-row sheet holding `colOneMissing`. -/
def sheet1 : Sheet := ⟨"One", 1, [colOneMissing]⟩

/-- Environment in which the Excel workbook itself is missing. -/
def envWorkbookMissing : Env :=
  { workbook := .error "FileNotFoundError: Gep DEMO DATA.xlsx"
    analysis_json := .ok (analysisData "Gep DEMO DATA.xlsx" [])
    csv_tables := .ok []
    now := "2025-01-01 00:00:00" }

/-- Environment in which `excel_analysis.json` is missing. -/
def envMissingJson : Env :=
  { workbook := .ok []
    analysis_json :=
      .error "FileNotFoundError: No such file or directory: excel_analysis.json"
    csv_tables := .ok []
    now := "2025-01-01 00:00:00" }

end GEP

/-! Section: helper lemmas shared by the claim theorems. -/

namespace GEP

/-- Deduplicating a list does not change the finite set of its elements. -/
theorem dedup_toFinset {α : Type _} [DecidableEq α] (l : List α) :
    l.dedup.toFinset = l.toFinset := by
  ext x
  simp [List.mem_dedup]

/-- Membership in `List.enum` characterised by position. -/
theorem mem_enum_iff {α : Type _} {l : List α} {i : ℕ} {a : α} :
    (i, a) ∈ l.enum ↔ ∃ h : i < l.length, l[i] = a := by
  constructor
  · intro h
    obtain ⟨h1, h2⟩ := List.mem_enum h
    exact ⟨h1, h2.symm⟩
  · rintro ⟨h, rfl⟩
    have hlen : i < l.enum.length := by simpa [List.enum_length] using h
    have he := List.getElem_enum l i hlen
    rw [← he]
    exact List.getElem_mem hlen

/-- The intersection list built by `calculate_column_similarity` counts the
elements of the set intersection. -/
theorem length_filter_mem_eq_card_inter (l1 l2 : List String) :
    (l1.dedup.filter fun x => decide (x ∈ l2.dedup)).length =
      (l1.toFinset ∩ l2.toFinset).card := by
  have hnd : (l1.dedup.filter fun x => decide (x ∈ l2.dedup)).Nodup :=
    (List.nodup_dedup l1).filter _
  rw [← List.toFinset_card_of_nodup hnd]
  congr 1
  ext x
  simp [List.mem_dedup]

/-- Transitivity of the sort comparison of `analyze_relationships`. -/
theorem relLE_trans :
    ∀ a b c : Relationship, relLE a b = true → relLE b c = true → relLE a c = true := by
  intro a b c hab hbc
  simp only [relLE, decide_eq_true_eq] at *
  exact le_trans hbc hab

/-- Totality of the sort comparison of `analyze_relationships`. -/
theorem relLE_total : ∀ a b : Relationship, (relLE a b || relLE b a) = true := by
  intro a b
  simp only [relLE, Bool.or_eq_true, decide_eq_true_eq]
  exact le_total b.match_percentage a.match_percentage

/-- Membership in the generation loop, characterised by sheet positions,
columns and the threshold test. -/
theorem mem_genRelationshipsL {order : List String → List String}
    {sheets : List Sheet} {r : Relationship} :
    r ∈ genRelationshipsL order sheets ↔
      ∃ i j, ∃ (hi : i < sheets.length) (hj : j < sheets.length), i ≠ j ∧
        ∃ c1 ∈ (sheets[i]).columns, ∃ c2 ∈ (sheets[j]).columns,
          c1.name ≠ c2.name ∧
          50 < (calculate_column_similarityL order c1 c2).match_percentage ∧
          r = { from_sheet := (sheets[i]).name
                from_column := c1.name
                to_sheet := (sheets[j]).name
                to_column := c2.name
                match_percentage :=
                  (calculate_column_similarityL order c1 c2).match_percentage
                common_values :=
                  (calculate_column_similarityL order c1 c2).common_values } := by
  unfold genRelationshipsL
  simp only [List.mem_flatMap, Prod.exists, mem_enum_iff, List.mem_ite_nil_left,
    List.mem_ite_nil_right, List.mem_singleton]
  constructor
  · rintro ⟨i, s, ⟨hi, rfl⟩, j, t, ⟨hj, rfl⟩, hij, c1, hc1, c2, hc2, hnm, hpct, rfl⟩
    exact ⟨i, j, hi, hj, hij, c1, hc1, c2, hc2, hnm, hpct, rfl⟩
  · rintro ⟨i, j, hi, hj, hij, c1, hc1, c2, hc2, hnm, hpct, rfl⟩
    exact ⟨i, _, ⟨hi, rfl⟩, j, _, ⟨hj, rfl⟩, hij, c1, hc1, c2, hc2, hnm, hpct, rfl⟩

/-- Membership in the sorted relationship list, in terms of
`mkRelationship`. -/
theorem mem_analyze_relationships {sheets : List Sheet} {r : Relationship} :
    r ∈ analyze_relationships sheets ↔
      ∃ i j, ∃ (hi : i < sheets.length) (hj : j < sheets.length), i ≠ j ∧
        ∃ c1 ∈ (sheets[i]).columns, ∃ c2 ∈ (sheets[j]).columns,
          c1.name ≠ c2.name ∧
          50 < (calculate_column_similarity c1 c2).match_percentage ∧
          r = mkRelationship sheets[i] c1 sheets[j] c2 := by
  rw [show analyze_relationships sheets =
      (genRelationshipsL id sheets).mergeSort relLE from rfl,
    (List.mergeSort_perm _ _).mem_iff]
  exact mem_genRelationshipsL

/-- Stability of the sort: for every percentage value, the sorted output
lists the candidates of that percentage exactly as the generation loop
produced them. -/
theorem filter_analyze_eq_filter_gen (sheets : List Sheet) (p : ℚ) :
    (analyze_relationships sheets).filter (fun r => decide (r.match_percentage = p)) =
      (genRelationships sheets).filter (fun r => decide (r.match_percentage = p)) := by
  have hall : ∀ a ∈ (genRelationships sheets).filter
      (fun r => decide (r.match_percentage = p)),
      (fun r : Relationship => decide (r.match_percentage = p)) a = true :=
    fun a ha => (List.mem_filter.mp ha).2
  have hpw : ((genRelationships sheets).filter
      (fun r => decide (r.match_percentage = p))).Pairwise
      (fun a b => relLE a b = true) := by
    apply List.pairwise_of_forall_mem_list
    intro a ha b hb
    have hap := (List.mem_filter.mp ha).2
    have hbp := (List.mem_filter.mp hb).2
    simp only [decide_eq_true_eq] at hap hbp
    simp only [relLE, decide_eq_true_eq, hap, hbp, le_refl]
  have hsub : List.Sublist
      ((genRelationships sheets).filter
        (fun r => decide (r.match_percentage = p)))
      ((genRelationships sheets).mergeSort relLE) :=
    List.sublist_mergeSort relLE_trans relLE_total hpw
      (List.filter_sublist _)
  have hsub2 : List.Sublist
      ((genRelationships sheets).filter
        (fun r => decide (r.match_percentage = p)))
      (((genRelationships sheets).mergeSort relLE).filter
        (fun r => decide (r.match_percentage = p))) := by
    have h := hsub.filter (fun r => decide (r.match_percentage = p))
    rwa [List.filter_eq_self.mpr hall] at h
  have hperm : ((((genRelationships sheets).mergeSort relLE)).filter
        (fun r => decide (r.match_percentage = p))).Perm
      ((genRelationships sheets).filter
        (fun r => decide (r.match_percentage = p))) :=
    (List.mergeSort_perm _ _).filter _
  exact (hsub2.eq_of_length hperm.length_eq.symm).symm

/-- The match percentage never depends on the run's set-enumeration
order. -/
theorem simL_match_percentage (order : List String → List String)
    (c1 c2 : Column) :
    (calculate_column_similarityL order c1 c2).match_percentage =
      (calculate_column_similarity c1 c2).match_percentage := by
  simp only [calculate_column_similarity, calculate_column_similarityL]
  split_ifs <;> rfl

/-- When a candidate is emitted, its `common_values` field is the fixed
run's intersection list passed through the run's order. -/
theorem simL_common_values_of_pct (order : List String → List String)
    (c1 c2 : Column)
    (hp : 50 < (calculate_column_similarityL order c1 c2).match_percentage) :
    (calculate_column_similarityL order c1 c2).common_values =
      order ((calculate_column_similarity c1 c2).common_values) := by
  simp only [calculate_column_similarity, calculate_column_similarityL] at hp ⊢
  split_ifs at hp ⊢ with hc hs
  · norm_num at hp
  · norm_num at hp
  · rfl

/-- One run's generation loop is the fixed run's loop with each candidate's
common values re-listed in that run's order. -/
theorem genRelationshipsL_eq_map (order : List String → List String)
    (sheets : List Sheet) :
    genRelationshipsL order sheets =
      (genRelationships sheets).map (reorderRel order) := by
  show genRelationshipsL order sheets =
    (genRelationshipsL id sheets).map (reorderRel order)
  unfold genRelationshipsL
  rw [List.map_flatMap]
  apply List.flatMap_congr
  intro p1 _
  rw [List.map_flatMap]
  apply List.flatMap_congr
  intro p2 _
  by_cases hij : p1.1 = p2.1
  · simp only [if_pos hij, List.map_nil]
  · simp only [if_neg hij]
    rw [List.map_flatMap]
    apply List.flatMap_congr
    intro c1 _
    rw [List.map_flatMap]
    apply List.flatMap_congr
    intro c2 _
    by_cases hnm : c1.name = c2.name
    · simp only [if_pos hnm, List.map_nil]
    · simp only [if_neg hnm, simL_match_percentage order c1 c2,
        simL_match_percentage id c1 c2]
      by_cases hp : 50 < (calculate_column_similarity c1 c2).match_percentage
      · simp only [if_pos hp, List.map_cons, List.map_nil]
        have hcv := simL_common_values_of_pct order c1 c2
          (by rw [simL_match_percentage]; exact hp)
        rw [hcv]
        rfl
      · simp only [if_neg hp, List.map_nil]

/-- One run's `analyze_relationships` is the fixed run's output with each
candidate's common values re-listed in that run's order: the sort never
separates the two runs, because the comparison reads only the match
percentage, which re-listing preserves. -/
theorem analyze_relationshipsL_eq_map (order : List String → List String)
    (sheets : List Sheet) :
    analyze_relationshipsL order sheets =
      (analyze_relationships sheets).map (reorderRel order) := by
  show (genRelationshipsL order sheets).mergeSort relLE =
    ((genRelationshipsL id sheets).mergeSort relLE).map (reorderRel order)
  rw [genRelationshipsL_eq_map order sheets]
  exact (@List.map_mergeSort Relationship Relationship relLE relLE
    (reorderRel order) (genRelationshipsL id sheets) (fun a _ b _ => rfl)).symm

/-! Section: the claims. -/

/-- C1 (counterexample): two sheets whose only columns share the name `K`
and overlap completely (match percentage 100 > 50) produce no relationship
candidate at all, because `analyze_relationships` skips every pair of
same-named columns (`if col1 != col2`), contradicting the claim that
same-named pairs are considered and emitted exactly when the percentage
exceeds 50. -/
theorem C1_counterexample :
    50 < (calculate_column_similarity colK1 colK2).match_percentage ∧
    analyze_relationships [sheetKA, sheetKB] = [] := by
  constructor
  · simp +decide [calculate_column_similarity, calculate_column_similarityL,
      colK1, colK2, nonNullValues]
  · have hgen : genRelationshipsL id [sheetKA, sheetKB] = [] := rfl
    show (genRelationshipsL id [sheetKA, sheetKB]).mergeSort relLE = []
    rw [hgen, List.mergeSort_nil]

/-- C1 (amended): relationship inference considers every ordered pair of
distinct sheet positions and every ordered pair of columns whose names
differ (same-named pairs are skipped), and emits a candidate exactly when
the directed match percentage exceeds 50. -/
theorem C1_amended_candidate_iff :
    ∀ (sheets : List Sheet) (r : Relationship),
      r ∈ analyze_relationships sheets ↔
        ∃ i j, ∃ (hi : i < sheets.length) (hj : j < sheets.length), i ≠ j ∧
          ∃ c1 ∈ (sheets[i]).columns, ∃ c2 ∈ (sheets[j]).columns,
            c1.name ≠ c2.name ∧
            50 < (calculate_column_similarity c1 c2).match_percentage ∧
            r = mkRelationship sheets[i] c1 sheets[j] c2 :=
  fun _ _ => mem_analyze_relationships

/-- C1 (witness): on two concrete one-column sheets with differently named
fully overlapping columns, the characterisation produces the expected
candidate. -/
theorem C1_witness :
    mkRelationship sheetA2 colKa sheetB2 colKb ∈
      analyze_relationships [sheetA2, sheetB2] := by
  apply (C1_amended_candidate_iff [sheetA2, sheetB2] _).mpr
  refine ⟨0, 1, by decide, by decide, by decide, colKa, by decide, colKb,
    by decide, by decide, ?_, rfl⟩
  simp +decide [calculate_column_similarity, calculate_column_similarityL,
    colKa, colKb, nonNullValues]

/-- C2: whenever the source column has at least one non-missing value, the
match percentage is the number of distinct string representations shared by
source and target divided by the number of distinct string representations
of the source, times 100; on the worked example (five distinct values
against the same five plus three extra) the two directions give 100 and
62.5. -/
theorem C2_match_percentage_formula :
    (∀ col1 col2 : Column, nonNullValues col1 ≠ [] →
      (calculate_column_similarity col1 col2).match_percentage =
        (((nonNullValues col1).toFinset ∩ (nonNullValues col2).toFinset).card : ℚ) /
          ((nonNullValues col1).toFinset.card : ℚ) * 100) ∧
    (calculate_column_similarity colX colY).match_percentage = 100 ∧
    (calculate_column_similarity colY colX).match_percentage = 62.5 := by
  refine ⟨?_, ?_, ?_⟩

  · intro col1 col2 h1
    simp only [calculate_column_similarity, calculate_column_similarityL]
    split_ifs with hc hs
    · rcases hc with hc | hc
      · exact absurd (List.length_eq_zero.mp hc) h1
      · rw [List.length_eq_zero.mp hc]
        simp
    · exact absurd ((List.dedup_eq_nil _).mp (List.length_eq_zero.mp hs)) h1
    · dsimp only
      rw [length_filter_mem_eq_card_inter, List.card_toFinset]
  · simp +decide [calculate_column_similarity, calculate_column_similarityL,
      colX, colY, nonNullValues]
  · simp +decide [calculate_column_similarity, calculate_column_similarityL,
      colX, colY, nonNullValues]
    norm_num

/-- C2 (witness): the general formula instantiated at the worked example's
source column. -/
theorem C2_witness :
    (calculate_column_similarity colX colY).match_percentage =
      (((nonNullValues colX).toFinset ∩ (nonNullValues colY).toFinset).card : ℚ) /
        ((nonNullValues colX).toFinset.card : ℚ) * 100 :=
  C2_match_percentage_formula.1 colX colY (by decide)

/-- C3 (counterexample): `id` and `List.reverse` are both admissible
set-enumeration behaviours of a run (each re-lists a duplicate-free list up
to permutation), yet on two concrete columns with two shared values the
serialized `common_values` bytes differ between the two runs, so the
serialized analysis is not a function of the input workbook alone. -/
theorem C3_counterexample :
    IsReordering id ∧ IsReordering List.reverse ∧
    renderCommonValues ((calculate_column_similarityL id colP colQ).common_values) ≠
      renderCommonValues
        ((calculate_column_similarityL List.reverse colP colQ).common_values) := by
  refine ⟨fun l => List.Perm.refl l, fun l => List.reverse_perm l, ?_⟩
  decide

/-- C3 (amended): the full analysis written to `excel_analysis.json` —
profiles and relationship list together — is deterministic up to the
enumeration order inside each candidate's `common_values` list: for any two
runs, the file path, sheet names, sheet structures and sheet count
coincide exactly, and the relationship lists agree candidate by candidate
in the same sorted positions, with equal endpoints and match percentage
and with `common_values` lists that are permutations of each other. -/
theorem C3_amended_deterministic_up_to_order :
    ∀ (f g : List String → List String), IsReordering f → IsReordering g →
      ∀ (file_path : String) (sheets : List Sheet),
        (analysisDataL f file_path sheets).file_path =
            (analysisDataL g file_path sheets).file_path ∧
          (analysisDataL f file_path sheets).sheet_names =
            (analysisDataL g file_path sheets).sheet_names ∧
          (analysisDataL f file_path sheets).sheet_structures =
            (analysisDataL g file_path sheets).sheet_structures ∧
          (analysisDataL f file_path sheets).total_sheets =
            (analysisDataL g file_path sheets).total_sheets ∧
          List.Forall₂ RelMatchUpToOrder
            (analysisDataL f file_path sheets).potential_relationships
            (analysisDataL g file_path sheets).potential_relationships := by
  intro f g hf hg file_path sheets
  refine ⟨rfl, rfl, rfl, rfl, ?_⟩
  show List.Forall₂ RelMatchUpToOrder (analyze_relationshipsL f sheets)
    (analyze_relationshipsL g sheets)
  rw [analyze_relationshipsL_eq_map f sheets, analyze_relationshipsL_eq_map g sheets,
    List.forall₂_map_right_iff, List.forall₂_map_left_iff]
  apply List.forall₂_same.mpr
  intro r _
  exact ⟨rfl, rfl, rfl, rfl, rfl, (hf _).trans (hg _).symm⟩

/-- C3 (witness): the amended statement instantiated at two concrete runs
on a concrete two-sheet workbook that produces relationship candidates. -/
theorem C3_witness :
    List.Forall₂ RelMatchUpToOrder
      (analysisDataL id "Gep DEMO DATA.xlsx" [sheetPA, sheetPB]).potential_relationships
      (analysisDataL List.reverse "Gep DEMO DATA.xlsx"
        [sheetPA, sheetPB]).potential_relationships :=
  (C3_amended_deterministic_up_to_order id List.reverse (fun l => List.Perm.refl l)
    (fun l => List.reverse_perm l) "Gep DEMO DATA.xlsx" [sheetPA, sheetPB]).2.2.2.2

/-- C4 (counterexample): for a source column whose only entry is missing,
the distinct-value set is empty and hence a subset of any target's, yet the
computed match percentage is 0, not 100, refuting the claim's subset
clause. -/
theorem C4_counterexample :
    (nonNullValues colAllMissing).toFinset ⊆ (nonNullValues colA).toFinset ∧
    (calculate_column_similarity colAllMissing colA).match_percentage = 0 := by
  constructor
  · intro x hx
    simp [nonNullValues, colAllMissing] at hx
  · simp +decide [calculate_column_similarity, calculate_column_similarityL,
      colAllMissing, colA, nonNullValues]

/-- C4 (amended): the match percentage always lies in `[0, 100]`, and it
equals 100 whenever the source column has at least one non-missing value
and its distinct string representations form a subset of the target's. -/
theorem C4_amended_range_and_subset :
    (∀ col1 col2 : Column,
      0 ≤ (calculate_column_similarity col1 col2).match_percentage ∧
        (calculate_column_similarity col1 col2).match_percentage ≤ 100) ∧
    (∀ col1 col2 : Column, nonNullValues col1 ≠ [] →
      (nonNullValues col1).toFinset ⊆ (nonNullValues col2).toFinset →
      (calculate_column_similarity col1 col2).match_percentage = 100) := by
  constructor
  · intro col1 col2
    simp only [calculate_column_similarity, calculate_column_similarityL]
    split_ifs with hc hs
    · norm_num
    · norm_num
    · dsimp only
      constructor
      · positivity
      · have hk : ((((nonNullValues col1).dedup.filter fun x =>
              decide (x ∈ (nonNullValues col2).dedup)).length : ℚ)) ≤
            (((nonNullValues col1).dedup.length : ℚ)) := by
          exact_mod_cast List.length_filter_le _ _
        have hn : (0:ℚ) < ((nonNullValues col1).dedup.length : ℚ) := by
          exact_mod_cast Nat.pos_of_ne_zero hs
        calc (((nonNullValues col1).dedup.filter fun x =>
                decide (x ∈ (nonNullValues col2).dedup)).length : ℚ) /
              ((nonNullValues col1).dedup.length : ℚ) * 100 ≤ 1 * 100 := by
              gcongr
              exact (div_le_one hn).mpr hk
          _ = 100 := by norm_num
  · intro col1 col2 h1 hsub
    have h2 : nonNullValues col2 ≠ [] := by
      obtain ⟨x, hx⟩ := List.exists_mem_of_ne_nil _ h1
      have hx2 : x ∈ nonNullValues col2 :=
        List.mem_toFinset.mp (hsub (List.mem_toFinset.mpr hx))
      intro he
      rw [he] at hx2
      exact absurd hx2 (List.not_mem_nil x)
    simp only [calculate_column_similarity, calculate_column_similarityL]
    split_ifs with hc hs
    · rcases hc with hc | hc
      · exact absurd (List.length_eq_zero.mp hc) h1
      · exact absurd (List.length_eq_zero.mp hc) h2
    · exact absurd ((List.dedup_eq_nil _).mp (List.length_eq_zero.mp hs)) h1
    · dsimp only
      have hfe : ((nonNullValues col1).dedup.filter fun x =>
          decide (x ∈ (nonNullValues col2).dedup)) = (nonNullValues col1).dedup := by
        apply List.filter_eq_self.mpr
        intro a ha
        have hmem : a ∈ nonNullValues col2 :=
          List.mem_toFinset.mp (hsub (List.mem_toFinset.mpr (List.mem_dedup.mp ha)))
        simpa [List.mem_dedup] using hmem
      rw [hfe]
      have hn : (((nonNullValues col1).dedup.length : ℚ)) ≠ 0 := by
        exact_mod_cast hs
      rw [div_self hn, one_mul]

/-- C4 (witness): the amended subset clause instantiated at the worked
example, where 100 is in fact attained. -/
theorem C4_witness :
    (calculate_column_similarity colX colY).match_percentage = 100 :=
  C4_amended_range_and_subset.2 colX colY (by decide) (by decide)

/-- C5 (counterexample): with `excel_analysis.json` missing, both the SQL
generator and the report generator propagate the exception to the caller
instead of returning a null/empty result, refuting the claim that each of
the three scripts catches errors at top level. -/
theorem C5_counterexample :
    generate_sql_schema_and_data envMissingJson =
      .error "FileNotFoundError: No such file or directory: excel_analysis.json" ∧
    generate_comprehensive_report envMissingJson =
      .error "FileNotFoundError: No such file or directory: excel_analysis.json" :=
  ⟨rfl, rfl⟩

/-- C5 (amended): only the extractor catches processing errors at its top
level, logging and returning a null result (`None, None, None`); the SQL
generator and the report generator propagate any error of their input
reads to the caller. -/
theorem C5_amended_error_handling :
    (∀ (env : Env) (e : String), env.workbook = .error e →
      analyze_excel_file env = none) ∧
    (∀ (env : Env) (e : String), env.analysis_json = .error e →
      generate_sql_schema_and_data env = .error e ∧
      generate_comprehensive_report env = .error e) := by
  constructor
  · intro env e h
    simp [analyze_excel_file, analyze_excel_fileE, h]
  · intro env e h
    constructor
    · simp only [generate_sql_schema_and_data, h]
      rfl
    · simp only [generate_comprehensive_report, h]
      rfl

/-- C5 (witness): the amended statement instantiated at environments with a
missing workbook and a missing JSON summary respectively. -/
theorem C5_witness :
    analyze_excel_file envWorkbookMissing = none ∧
    generate_sql_schema_and_data envMissingJson =
      .error "FileNotFoundError: No such file or directory: excel_analysis.json" ∧
    generate_comprehensive_report envMissingJson =
      .error "FileNotFoundError: No such file or directory: excel_analysis.json" :=
  ⟨C5_amended_error_handling.1 envWorkbookMissing _ rfl,
   (C5_amended_error_handling.2 envMissingJson _ rfl).1,
   (C5_amended_error_handling.2 envMissingJson _ rfl).2⟩

/-- C6: the profiler sets the potential-primary-key flag of a column if and
only if the column has zero missing entries and its distinct-value count
equals the sheet's row count. -/
theorem C6_potential_primary_key_iff :
    ∀ (s : Sheet), ∀ c ∈ s.columns,
      ((profileColumn s.nrows c).potential_primary_key = true ↔
        (c.cells.countP (fun v => v.isNone) = 0 ∧
          (nonNullValues c).dedup.length = s.nrows)) := by
  intro s c _
  simp only [profileColumn, Bool.and_eq_true, beq_iff_eq]
  exact and_comm

/-- C6 (witness): a two-row all-present all-distinct column is flagged. -/
theorem C6_witness :
    (profileColumn sheetW.nrows colId).potential_primary_key = true :=
  (C6_potential_primary_key_iff sheetW colId (by decide)).mpr (by decide)

/-- C7 (counterexample): on a zero-row sheet the (vacuously) all-missing
column has distinct count 0, yet the profiler flags it as a potential
primary key (`0 == len(df)` and `0 == 0` both hold), contradicting the
claim that an all-missing column is never flagged regardless of the row
count. -/
theorem C7_counterexample :
    (∀ v ∈ colEmpty.cells, v = none) ∧
    (profileColumn sheet0.nrows colEmpty).unique_count = 0 ∧
    (profileColumn sheet0.nrows colEmpty).potential_primary_key = true := by
  decide

/-- C7 (amended): an all-missing column always has distinct count 0, and is
never flagged as a potential primary key provided the sheet has at least
one row. -/
theorem C7_amended_all_missing :
    ∀ (s : Sheet), ∀ c ∈ s.columns, (∀ v ∈ c.cells, v = none) →
      (profileColumn s.nrows c).unique_count = 0 ∧
      (c.cells.length = s.nrows → 1 ≤ s.nrows →
        (profileColumn s.nrows c).potential_primary_key = false) := by
  intro s c _ hall
  have hnn : nonNullValues c = [] := by
    apply List.filterMap_eq_nil_iff.mpr
    intro a ha
    rw [hall a ha]
    rfl
  constructor
  · simp [profileColumn, hnn]
  · intro hlen hpos
    have hcount : c.cells.countP (fun v => v.isNone) = c.cells.length :=
      List.countP_eq_length.mpr fun a ha => by rw [hall a ha]; rfl
    have hnz : s.nrows ≠ 0 := by omega
    simp [profileColumn, hnn, hcount, hlen, hnz]

/-- C7 (witness): the amended statement instantiated at a one-row sheet
whose only column is all-missing. -/
theorem C7_witness :
    (profileColumn sheet1.nrows colOneMissing).unique_count = 0 ∧
    (profileColumn sheet1.nrows colOneMissing).potential_primary_key = false := by
  have h := C7_amended_all_missing sheet1 colOneMissing (by decide) (by decide)
  exact ⟨h.1, h.2 (by decide) (by decide)⟩

/-- C8: the relationship list is sorted by descending match percentage, the
sort is stable (for every percentage value the candidates of that value
appear exactly in generation order), nothing is added or dropped by the
sort (it is a permutation of the generated candidates), and symmetric
pairs are not deduplicated: when both directions of a differently named
column pair exceed the threshold, both candidates are in the output. -/
theorem C8_sorted_stable_no_dedup :
    (∀ sheets : List Sheet, (analyze_relationships sheets).Pairwise
        fun a b => b.match_percentage ≤ a.match_percentage) ∧
    (∀ (sheets : List Sheet) (p : ℚ),
      (analyze_relationships sheets).filter
          (fun r => decide (r.match_percentage = p)) =
        (genRelationships sheets).filter
          (fun r => decide (r.match_percentage = p))) ∧
    (∀ sheets : List Sheet,
      (analyze_relationships sheets).Perm (genRelationships sheets)) ∧
    (∀ (s1 s2 : Sheet) (c1 c2 : Column), c1 ∈ s1.columns → c2 ∈ s2.columns →
      c1.name ≠ c2.name →
      50 < (calculate_column_similarity c1 c2).match_percentage →
      50 < (calculate_column_similarity c2 c1).match_percentage →
      mkRelationship s1 c1 s2 c2 ∈ analyze_relationships [s1, s2] ∧
      mkRelationship s2 c2 s1 c1 ∈ analyze_relationships [s1, s2]) := by
  refine ⟨?_, filter_analyze_eq_filter_gen, ?_, ?_⟩
  · intro sheets
    have h := List.sorted_mergeSort relLE_trans relLE_total
      (genRelationshipsL id sheets)
    exact h.imp fun hab => by simpa [relLE] using hab
  · intro sheets
    exact List.mergeSort_perm _ _
  · intro s1 s2 c1 c2 hc1 hc2 hnm h12 h21
    constructor
    · exact mem_analyze_relationships.mpr
        ⟨0, 1, by simp, by simp, by simp, c1, hc1, c2, hc2, hnm, h12, rfl⟩
    · exact mem_analyze_relationships.mpr
        ⟨1, 0, by simp, by simp, by simp, c2, hc2, c1, hc1, hnm.symm, h21, rfl⟩

/-- C8 (witness): both directed candidates of a concrete differently named
fully overlapping column pair are kept. -/
theorem C8_witness :
    mkRelationship sheetA2 colKa sheetB2 colKb ∈
        analyze_relationships [sheetA2, sheetB2] ∧
      mkRelationship sheetB2 colKb sheetA2 colKa ∈
        analyze_relationships [sheetA2, sheetB2] := by
  apply C8_sorted_stable_no_dedup.2.2.2 sheetA2 sheetB2 colKa colKb
    (by decide) (by decide) (by decide)
  · simp +decide [calculate_column_similarity, calculate_column_similarityL,
      colKa, colKb, nonNullValues]
  · simp +decide [calculate_column_similarity, calculate_column_similarityL,
      colKa, colKb, nonNullValues]

/-- C9: type inference maps the column `Contract Value` with float storage
to `DECIMAL(10,2)` regardless of the sample values or counts, and maps any
column whose name contains `Code` with integer storage to
`INT PRIMARY KEY`, the name rules firing before any storage-type fallback
(the counts that drive the fallback rules are universally quantified). -/
theorem C9_type_inference :
    (∀ (sample_values : List String) (unique_count row_count : Nat),
      map_pandas_to_sql_type "float64" "Contract Value" sample_values
          unique_count row_count = "DECIMAL(10,2)") ∧
    (∀ (column_name dtype : String) (sample_values : List String)
        (unique_count row_count : Nat),
      strContains column_name "Code" = true → strContains dtype "int" = true →
      map_pandas_to_sql_type dtype column_name sample_values
          unique_count row_count = "INT PRIMARY KEY") := by
  constructor
  · intro sv u r
    rfl
  · intro column_name dtype sv u r h1 h2
    simp [map_pandas_to_sql_type, h1, h2]

/-- C9 (witness): the name rule instantiated at a concrete `*_Code` column
of integer storage whose counts would otherwise trigger the fallback. -/
theorem C9_witness :
    map_pandas_to_sql_type "int64" "Contract_Code" [] 5 5 = "INT PRIMARY KEY" :=
  C9_type_inference.2 "Contract_Code" "int64" [] 5 5 (by decide) (by decide)

/-- C10: when either column has no non-missing value the similarity record
is exactly `{0, []}`, and consequently such a pair can never contribute a
candidate, since every candidate in the output of `analyze_relationships`
has match percentage above 50 while such a pair's record would carry 0. -/
theorem C10_empty_columns :
    (∀ col1 col2 : Column, nonNullValues col1 = [] ∨ nonNullValues col2 = [] →
      calculate_column_similarity col1 col2 =
        { match_percentage := 0, common_values := [] }) ∧
    (∀ (sheets : List Sheet) (r : Relationship),
      r ∈ analyze_relationships sheets → 50 < r.match_percentage) ∧
    (∀ (sheets : List Sheet) (s1 s2 : Sheet) (col1 col2 : Column),
      nonNullValues col1 = [] ∨ nonNullValues col2 = [] →
      mkRelationship s1 col1 s2 col2 ∉ analyze_relationships sheets) := by
  have hzero : ∀ col1 col2 : Column,
      nonNullValues col1 = [] ∨ nonNullValues col2 = [] →
      calculate_column_similarity col1 col2 =
        { match_percentage := 0, common_values := [] } := by
    intro col1 col2 h
    rcases h with h | h <;>
      simp [calculate_column_similarity, calculate_column_similarityL, h]
  have hout : ∀ (sheets : List Sheet) (r : Relationship),
      r ∈ analyze_relationships sheets → 50 < r.match_percentage := by
    intro sheets r hr
    obtain ⟨i, j, hi, hj, hij, c1, hc1, c2, hc2, hnm, hpct, rfl⟩ :=
      mem_analyze_relationships.mp hr
    exact hpct
  refine ⟨hzero, hout, ?_⟩
  intro sheets s1 s2 col1 col2 h hmem
  have h50 := hout sheets _ hmem
  rw [show (mkRelationship s1 col1 s2 col2).match_percentage =
      (calculate_column_similarity col1 col2).match_percentage from rfl,
    hzero col1 col2 h] at h50
  norm_num at h50

/-- C10 (witness): the zero record and the non-candidacy instantiated at a
concrete all-missing source column. -/
theorem C10_witness :
    calculate_column_similarity colAllMissing colA =
      { match_percentage := 0, common_values := [] } ∧
    mkRelationship sheetKA colAllMissing sheetKB colA ∉
      analyze_relationships [sheetKA, sheetKB] :=
  ⟨C10_empty_columns.1 colAllMissing colA (Or.inl rfl),
   C10_empty_columns.2.2 [sheetKA, sheetKB] sheetKA sheetKB colAllMissing colA
     (Or.inl rfl)⟩

end GEP
